import Mathlib

/-
Verification of the IR_PID hot plate controller (src/csource/IR_PID/IR_PID.cpp).

Modelling conventions:
* C floating point values (float, double) are modelled as exact rationals.
* Machine integers are modelled as Nat; where wraparound matters it is made
  explicit: the byte accumulator of the bit decoder works modulo 256 and the
  unsigned long millisecond arithmetic uses subtraction modulo 2 ^ 32.
* Each C function that mutates globals becomes a Lean function from the record
  of those globals (plus the sampled hardware inputs) to the updated record.
* millis() is modelled as one sampled value per call of the translated function.
-/

/-- WINDUP_GUARD_GAIN, IR_PID.cpp line 42. -/
def WINDUP_GUARD_GAIN : ℚ := 100

/-- Unsigned 32 bit subtraction a - b: the arithmetic that unsigned long
millisecond differences perform in the source. -/
def usub32 (a b : Nat) : Nat := (a % 2 ^ 32 + 2 ^ 32 - b % 2 ^ 32) % 2 ^ 32

/-- The global state of the PID module: the gains pgain, igain, dgain and the
persistent iState and lastTemp, IR_PID.cpp lines 128-135. -/
structure PIDState where
  pgain : ℚ
  igain : ℚ
  dgain : ℚ
  iState : ℚ
  lastTemp : ℚ
deriving DecidableEq

/-- updatePID, IR_PID.cpp lines 185-230.  Returns the power command together
with the updated module state.  The source computes
windupGaurd = WINDUP_GUARD_GAIN / igain unconditionally (line 211); under the
IEEE arithmetic of the target that quotient is plus infinity when igain = 0, in
which case both clamp comparisons (lines 213 and 215) are false and the
accumulator is left unchanged.  The igain = 0 branch below models exactly that
behaviour of the unguarded division. -/
def updatePID (st : PIDState) (targetTemp curTemp : ℚ) : ℚ × PIDState :=
  let error := targetTemp - curTemp
  let pTerm := st.pgain * error
  let iState1 := st.iState + error
  let iState2 :=
    if st.igain = 0 then iState1
    else
      let windupGaurd := WINDUP_GUARD_GAIN / st.igain
      if iState1 > windupGaurd then windupGaurd
      else if iState1 < -windupGaurd then -windupGaurd
      else iState1
  let iTerm := st.igain * iState2
  let dTerm := st.dgain * (curTemp - st.lastTemp)
  (pTerm + iTerm - dTerm, { st with iState := iState2, lastTemp := curTemp })

/-- Variant of updatePID that flags the evaluation of the windup guard
expression WINDUP_GUARD_GAIN / igain with a zero divisor: it returns none
exactly when the source reaches line 211 with igain = 0, instead of modelling
the resulting IEEE infinity.  Used to settle whether that division is guarded. -/
def updatePIDChecked (st : PIDState) (targetTemp curTemp : ℚ) :
    Option (ℚ × PIDState) :=
  let error := targetTemp - curTemp
  let pTerm := st.pgain * error
  let iState1 := st.iState + error
  if st.igain = 0 then none
  else
    let windupGaurd := WINDUP_GUARD_GAIN / st.igain
    let iState2 :=
      if iState1 > windupGaurd then windupGaurd
      else if iState1 < -windupGaurd then -windupGaurd
      else iState1
    let iTerm := st.igain * iState2
    let dTerm := st.dgain * (curTemp - st.lastTemp)
    some (pTerm + iTerm - dTerm, { st with iState := iState2, lastTemp := curTemp })

/-- Claim C1: a single updatePID call returns exactly pTerm + iTerm - dTerm,
where pTerm = pgain * (target - current), iTerm = igain times the post-clamp
integral accumulator, and dTerm = dgain * (current - lastTemp); the derivative
term is subtracted, and lastTemp is updated to the current temperature. -/
theorem updatePID_power_formula (st : PIDState) (t c : ℚ) :
    (updatePID st t c).1
        = st.pgain * (t - c) + st.igain * (updatePID st t c).2.iState
          - st.dgain * (c - st.lastTemp)
      ∧ (updatePID st t c).2.lastTemp = c := by
  constructor <;> rfl

/-- Claim C2: for igain > 0, immediately after any updatePID call the integral
accumulator iState lies in the interval from -(100 / igain) to +(100 / igain):
the accumulator is clamped on every update before the integral term is formed. -/
theorem updatePID_iState_bounded (st : PIDState) (t c : ℚ) (h : 0 < st.igain) :
    -((100 : ℚ) / st.igain) ≤ (updatePID st t c).2.iState
      ∧ (updatePID st t c).2.iState ≤ (100 : ℚ) / st.igain := by
  have hne : st.igain ≠ 0 := ne_of_gt h
  have hw : 0 < (100 : ℚ) / st.igain := by positivity
  simp only [updatePID, WINDUP_GUARD_GAIN]
  split_ifs with h0 h1 h2
  · exact absurd h0 hne
  · constructor <;> linarith
  · constructor <;> linarith
  · constructor <;> linarith

/-- Witness for updatePID_iState_bounded at a concrete state with igain = 2 and
a large pre-call accumulator. -/
theorem updatePID_iState_bounded_witness :
    (0 : ℚ) < 2
      ∧ (-((100 : ℚ) / 2) ≤ (updatePID ⟨1, 2, 0, 1000, 0⟩ 0 0).2.iState
          ∧ (updatePID ⟨1, 2, 0, 1000, 0⟩ 0 0).2.iState ≤ (100 : ℚ) / 2) :=
  ⟨by norm_num, updatePID_iState_bounded ⟨1, 2, 0, 1000, 0⟩ 0 0 (by norm_num)⟩

/-- Claim C3 counterexample: updatePIDChecked returns none exactly when the
windup guard division WINDUP_GUARD_GAIN / igain is evaluated with a zero
divisor.  At igain = 0 it does return none: the source evaluates the division
unconditionally at line 211, so the claim that the division is explicitly
guarded and never runs with a zero divisor is false. -/
theorem updatePID_zero_igain_division_runs :
    updatePIDChecked ⟨1, 0, 0, 0, 0⟩ 10 5 = none := rfl

/-- Claim C3 amended: updatePID performs the division WINDUP_GUARD_GAIN / igain
unconditionally, with no guard; when igain = 0 the division runs with a zero
divisor (updatePIDChecked returns none), and under the IEEE semantics of that
division the guard value is infinite, so the accumulator is left unclamped:
the clamp is disabled in effect, not by an explicit guard. -/
theorem updatePID_zero_igain_clamp_disabled (st : PIDState) (t c : ℚ)
    (h : st.igain = 0) :
    updatePIDChecked st t c = none
      ∧ (updatePID st t c).2.iState = st.iState + (t - c) := by
  constructor
  · simp [updatePIDChecked, h]
  · simp [updatePID, h]

/-- Witness for updatePID_zero_igain_clamp_disabled at a concrete state. -/
theorem updatePID_zero_igain_clamp_disabled_witness :
    updatePIDChecked ⟨1, 0, 2, 5, 3⟩ 10 4 = none
      ∧ (updatePID ⟨1, 0, 2, 5, 3⟩ 10 4).2.iState = (5 : ℚ) + (10 - 4) :=
  updatePID_zero_igain_clamp_disabled ⟨1, 0, 2, 5, 3⟩ 10 4 rfl

/-- The global state of the IR temperature sensor module, IR_PID.cpp lines
569-587: the bit decoder fields written by the interrupt handler readBit, the
assembled 4 byte message, the timeout bookkeeping and the decoded temperatures.
Bytes are Nat values below 256, message is the 4 entry buffer.  The int
counters of the source are modelled as Nat (they are only ever 0 or
incremented). -/
structure SensorState where
  nbits : Nat
  hexbyte : Nat
  read_byte : Nat
  byte_ready : Nat
  message : List Nat
  nbytes : Nat
  message_waiting : Nat
  last_time : Nat
  consectutive_timeouts : Nat
  temp : ℚ
  ambient : ℚ
  tcSum : ℚ
  latestReading : ℚ
  readCount : Nat
deriving DecidableEq

/-- readBit, IR_PID.cpp lines 627-649: the interrupt routine for one falling
clock edge.  The input hi is the sampled level of the data line
(digitalRead(IR_DATA) == HIGH).  The byte accumulator hexbyte is an 8 bit
variable, so the shift-or is taken modulo 256. -/
def readBit (st : SensorState) (hi : Bool) : SensorState :=
  let bit : Nat := if hi then 1 else 0
  let nbits1 := st.nbits + 1
  let hexbyte1 := (st.hexbyte * 2 + bit) % 256
  if nbits1 = 8 then
    let st1 :=
      if st.byte_ready = 0 then { st with read_byte := hexbyte1, byte_ready := 1 }
      else st
    let st2 :=
      if hexbyte1 = 0x0d then { st1 with nbytes := 0, message_waiting := 1 }
      else if st1.message_waiting = 0 then
        let st3 :=
          if st1.nbytes < 4 then
            { st1 with message := st1.message.set st1.nbytes hexbyte1 }
          else st1
        { st3 with nbytes := st3.nbytes + 1 }
      else st1
    { st2 with hexbyte := 0, nbits := 0 }
  else
    { st with nbits := nbits1, hexbyte := hexbyte1 }

/-- Two's complement reinterpretation of a 16 bit pattern: the value an
avr-gcc int (16 bits wide on the AVR target of this sketch) holds for the bit
pattern n. -/
def toInt16 (n : Nat) : Int :=
  if n % 2 ^ 16 < 2 ^ 15 then ((n % 2 ^ 16 : Nat) : Int)
  else ((n % 2 ^ 16 : Nat) : Int) - 2 ^ 16

/-- updateTempSensor, IR_PID.cpp lines 598-625.  now is the sampled millis()
value for this call.  In int t = message[1] shifted left 8 or-ed with
message[2] (line 603) the arithmetic is 16 bit int arithmetic on the AVR
target: the bit pattern (at most 0xFFFF, since the entries are bytes) is
reinterpreted through toInt16 and goes negative for message[1] at least 0x80;
273.15 is the exact rational 27315 / 100. -/
def updateTempSensor (st : SensorState) (now : Nat) : SensorState :=
  let st1 :=
    if st.message_waiting = 1 then
      let stA := { st with last_time := now, consectutive_timeouts := 0 }
      let stB :=
        if stA.message.getD 0 0 = 0x4c then
          let t : Int :=
            toInt16 (Nat.lor (stA.message.getD 1 0 * 256) (stA.message.getD 2 0))
          { stA with temp := (t : ℚ) / 16 - 27315 / 100 }
        else if stA.message.getD 0 0 = 0x66 then
          let t : Int :=
            toInt16 (Nat.lor (stA.message.getD 1 0 * 256) (stA.message.getD 2 0))
          { stA with ambient := (t : ℚ) / 16 - 27315 / 100 }
        else stA
      { stB with message_waiting := 0 }
    else st
  let st2 :=
    { st1 with tcSum := st1.tcSum + st1.temp, readCount := st1.readCount + 1 }
  if 1000 < usub32 now st2.last_time then
    { st2 with nbits := 0, nbytes := 0, hexbyte := 0, message_waiting := 0,
               byte_ready := 0, last_time := now,
               consectutive_timeouts := st2.consectutive_timeouts + 1 }
  else st2

/-- getFreshTemp, IR_PID.cpp lines 651-657: returns the current object
temperature and resets the diagnostic accumulator and counter. -/
def getFreshTemp (st : SensorState) : ℚ × SensorState :=
  (st.temp, { st with latestReading := st.temp, readCount := 0, tcSum := 0 })

lemma usub32_self (a : Nat) : usub32 a a = 0 := by
  simp [usub32]

lemma toInt16_of_lt (n : Nat) (h : n < 2 ^ 15) : toInt16 n = (n : Int) := by
  have h16 : n < 2 ^ 16 := lt_trans h (by norm_num)
  unfold toInt16
  rw [Nat.mod_eq_of_lt h16, if_pos h]

/-- Claim C5 counterexample: at the waiting frame 4c ff ff 00 the 16 bit int
arithmetic of int t = message[1] shifted left 8 or-ed with message[2] wraps the
pattern 0xFFFF to -1, so updateTempSensor computes (-1)/16 - 273.15 and not
0xFFFF/16 - 273.15: the claimed unsigned reading of the decode formula fails
at this concrete input. -/
theorem updateTempSensor_decode_wraps :
    (updateTempSensor ⟨0, 0, 0, 0, [0x4c, 0xff, 0xff, 0x00], 4, 1, 0, 0,
        0, 0, 0, 0, 0⟩ 7).temp = ((-1 : ℤ) : ℚ) / 16 - 27315 / 100
      ∧ (updateTempSensor ⟨0, 0, 0, 0, [0x4c, 0xff, 0xff, 0x00], 4, 1, 0, 0,
          0, 0, 0, 0, 0⟩ 7).temp
        ≠ ((Nat.lor (0xff * 256) 0xff : ℕ) : ℚ) / 16 - 27315 / 100 := by
  have ht : toInt16 (Nat.lor 65280 255) = -1 := by decide
  have h : (updateTempSensor ⟨0, 0, 0, 0, [0x4c, 0xff, 0xff, 0x00], 4, 1, 0, 0,
      0, 0, 0, 0, 0⟩ 7).temp = ((-1 : ℤ) : ℚ) / 16 - 27315 / 100 := by
    norm_num [updateTempSensor, List.getD, usub32_self, ht]
  refine ⟨h, ?_⟩
  rw [h]
  have hlor : Nat.lor (255 * 256) 255 = 65535 := by decide
  simp only [hlor]
  norm_num

/-- Claim C5 amended: when a waiting message has channel tag 0x4c,
updateTempSensor sets the object temperature to
int16(message[1] shifted left 8, or message[2]) / 16 - 273.15, where int16 is
the two's complement value of the 16 bit pattern (the int arithmetic of the
AVR target); analogously for tag 0x66 and the ambient temperature.  Whenever
message[1] is below 0x80 - which covers every frame the sensor can emit, and
in particular the frame 4c 10 00 00, witnessed below at -17.15 degrees Celsius
- this agrees with the plain unsigned formula
(message[1] shifted left 8, or message[2]) / 16 - 273.15 of the claim. -/
theorem updateTempSensor_decode_int16 (st : SensorState) (now : Nat)
    (hw : st.message_waiting = 1) :
    (st.message.getD 0 0 = 0x4c →
      (updateTempSensor st now).temp
        = ((toInt16 (Nat.lor (st.message.getD 1 0 * 256) (st.message.getD 2 0))
            : ℤ) : ℚ) / 16 - 27315 / 100)
    ∧ (st.message.getD 0 0 = 0x66 →
      (updateTempSensor st now).ambient
        = ((toInt16 (Nat.lor (st.message.getD 1 0 * 256) (st.message.getD 2 0))
            : ℤ) : ℚ) / 16 - 27315 / 100)
    ∧ (st.message.getD 0 0 = 0x4c → st.message.getD 1 0 < 128 →
        st.message.getD 2 0 < 256 →
      (updateTempSensor st now).temp
        = ((Nat.lor (st.message.getD 1 0 * 256) (st.message.getD 2 0) : ℕ) : ℚ)
            / 16 - 27315 / 100) := by
  have hdec : st.message.getD 0 0 = 0x4c →
      (updateTempSensor st now).temp
        = ((toInt16 (Nat.lor (st.message.getD 1 0 * 256) (st.message.getD 2 0))
            : ℤ) : ℚ) / 16 - 27315 / 100 := by
    intro htag
    rw [List.getD_eq_getElem?_getD] at htag
    simp [updateTempSensor, hw, htag, usub32_self]
  refine ⟨hdec, ?_, ?_⟩
  · intro htag
    rw [List.getD_eq_getElem?_getD] at htag
    simp [updateTempSensor, hw, htag, usub32_self]
  · intro htag hm1 hm2
    have hlt : Nat.lor (st.message.getD 1 0 * 256) (st.message.getD 2 0)
        < 2 ^ 15 := by
      have a1 : st.message.getD 1 0 * 256 < 2 ^ 15 := by omega
      have a2 : st.message.getD 2 0 < 2 ^ 15 := by omega
      exact Nat.bitwise_lt_two_pow a1 a2
    rw [hdec htag, toInt16_of_lt _ hlt]
    norm_num

/-- Witness for updateTempSensor_decode_int16: the frame 4c 10 00 00 decodes
to 0x1000 / 16 - 273.15 = -17.15 degrees Celsius, through the unsigned
agreement conjunct since 0x10 is below 0x80. -/
theorem updateTempSensor_decode_int16_witness :
    (updateTempSensor ⟨0, 0, 0, 0, [0x4c, 0x10, 0x00, 0x00], 4, 1, 0, 0,
        0, 0, 0, 0, 0⟩ 7).temp = -343 / 20 := by
  rw [(updateTempSensor_decode_int16 ⟨0, 0, 0, 0, [0x4c, 0x10, 0x00, 0x00], 4,
        1, 0, 0, 0, 0, 0, 0, 0⟩ 7 rfl).2.2 rfl (by decide) (by decide)]
  have hlor : Nat.lor 4096 0 = 4096 := by decide
  norm_num [List.getD, hlor]

/-- Claim C9: a waiting message whose tag is neither 0x4c nor 0x66 leaves both
temperatures unchanged, yet is consumed exactly like a valid frame: the waiting
flag is cleared, the last frame time is refreshed to now and the consecutive
timeout counter is reset to 0. -/
theorem updateTempSensor_unrecognized_tag (st : SensorState) (now : Nat)
    (hw : st.message_waiting = 1) (h1 : st.message.getD 0 0 ≠ 0x4c)
    (h2 : st.message.getD 0 0 ≠ 0x66) :
    (updateTempSensor st now).temp = st.temp
      ∧ (updateTempSensor st now).ambient = st.ambient
      ∧ (updateTempSensor st now).message_waiting = 0
      ∧ (updateTempSensor st now).last_time = now
      ∧ (updateTempSensor st now).consectutive_timeouts = 0 := by
  rw [List.getD_eq_getElem?_getD] at h1 h2
  simp [updateTempSensor, hw, h1, h2, usub32_self]

/-- Witness for updateTempSensor_unrecognized_tag at a concrete frame with tag
0x55 and a stale temperature of 42. -/
theorem updateTempSensor_unrecognized_tag_witness :
    (updateTempSensor ⟨0, 0, 0, 0, [0x55, 0x10, 0x00, 0x00], 4, 1, 3, 9,
        42, 7, 0, 0, 0⟩ 11).temp = 42
      ∧ (updateTempSensor ⟨0, 0, 0, 0, [0x55, 0x10, 0x00, 0x00], 4, 1, 3, 9,
          42, 7, 0, 0, 0⟩ 11).ambient = 7
      ∧ (updateTempSensor ⟨0, 0, 0, 0, [0x55, 0x10, 0x00, 0x00], 4, 1, 3, 9,
          42, 7, 0, 0, 0⟩ 11).message_waiting = 0
      ∧ (updateTempSensor ⟨0, 0, 0, 0, [0x55, 0x10, 0x00, 0x00], 4, 1, 3, 9,
          42, 7, 0, 0, 0⟩ 11).last_time = 11
      ∧ (updateTempSensor ⟨0, 0, 0, 0, [0x55, 0x10, 0x00, 0x00], 4, 1, 3, 9,
          42, 7, 0, 0, 0⟩ 11).consectutive_timeouts = 0 :=
  updateTempSensor_unrecognized_tag ⟨0, 0, 0, 0, [0x55, 0x10, 0x00, 0x00], 4, 1,
    3, 9, 42, 7, 0, 0, 0⟩ 11 rfl (by decide) (by decide)

/-- Claim C6: whenever a byte completes (the bit counter reaches 8) and the
assembled byte is the frame terminator 0x0D, readBit resets the byte index to 0
and raises the message waiting flag, however many bytes were collected. -/
theorem readBit_terminator (st : SensorState) (hi : Bool) (h7 : st.nbits = 7)
    (hterm : (st.hexbyte * 2 + (if hi then 1 else 0)) % 256 = 0x0d) :
    (readBit st hi).nbytes = 0 ∧ (readBit st hi).message_waiting = 1 := by
  simp [readBit, h7, hterm]

/-- Witness for readBit_terminator: accumulator 6, incoming high bit, only two
bytes collected so far; the completed byte is 13 = 0x0D. -/
theorem readBit_terminator_witness :
    (readBit ⟨7, 6, 0, 1, [1, 2, 0, 0], 2, 0, 0, 0, 0, 0, 0, 0, 0⟩ true).nbytes = 0
      ∧ (readBit ⟨7, 6, 0, 1, [1, 2, 0, 0], 2, 0, 0, 0, 0, 0, 0, 0,
          0⟩ true).message_waiting = 1 :=
  readBit_terminator ⟨7, 6, 0, 1, [1, 2, 0, 0], 2, 0, 0, 0, 0, 0, 0, 0, 0⟩ true
    rfl (by decide)

/-- Initial decoder state for the C7 counterexample: all counters and flags 0,
a zeroed 4 byte buffer. -/
def decoderStart : SensorState :=
  ⟨0, 0, 0, 0, [0, 0, 0, 0], 0, 0, 0, 0, 0, 0, 0, 0, 0⟩

/-- Bit sequence of the byte 0x01, most significant bit first. -/
def oneByteBits : List Bool :=
  [false, false, false, false, false, false, false, true]

set_option maxRecDepth 10000 in
/-- Claim C7 counterexample: feeding five complete non-terminator bytes (0x01
each) from a fresh decoder state leaves nbytes at 5: the source increments
nbytes even when it is already 4 (only the buffer write is guarded), so the
byte count does exceed 4. -/
theorem readBit_nbytes_five :
    ((oneByteBits ++ oneByteBits ++ oneByteBits ++ oneByteBits
        ++ oneByteBits).foldl readBit decoderStart).nbytes = 5 := by
  decide

/-- Claim C7 amended: the byte count nbytes is not bounded by 4: readBit
increments it for every completed non-terminator byte while no message is
waiting (readBit_nbytes_five reaches 5).  What does hold is that bytes
completing while nbytes is already at least 4 are silently dropped: the 4 byte
message buffer is left unchanged. -/
theorem readBit_overflow_bytes_dropped (st : SensorState) (hi : Bool)
    (h : 4 ≤ st.nbytes) :
    (readBit st hi).message = st.message := by
  simp only [readBit]
  split_ifs <;> simp_all <;> omega

/-- Witness for readBit_overflow_bytes_dropped: a completing byte with the
count already at 5 leaves the buffer untouched. -/
theorem readBit_overflow_bytes_dropped_witness :
    (readBit ⟨7, 0, 0, 1, [1, 2, 3, 4], 5, 0, 0, 0, 0, 0, 0, 0, 0⟩ true).message
      = [1, 2, 3, 4] :=
  readBit_overflow_bytes_dropped ⟨7, 0, 0, 1, [1, 2, 3, 4], 5, 0, 0, 0, 0, 0, 0,
    0, 0⟩ true (by decide)

/-- The global state of the heater module, IR_PID.cpp lines 268-272: the stored
on-duration heatcycles (milliseconds out of 1000), the relay output state and
the start time of the current 1 second window. -/
structure HeaterState where
  heatcycles : ℚ
  heaterState : Bool
  heatLastTime : Nat
deriving DecidableEq

/-- updateHeater, IR_PID.cpp lines 279-290.  now is the sampled millis() value.
_turnHeatElementOnOff is modelled by its effect on heaterState.  The elapsed
time comparisons are the unsigned long subtraction modulo 2 ^ 32; the
comparison against the float heatcycles converts the elapsed time to a
rational. -/
def updateHeater (st : HeaterState) (now : Nat) : HeaterState :=
  let st1 :=
    if 1000 ≤ usub32 now st.heatLastTime ∨ now < st.heatLastTime then
      { st with heaterState := true, heatLastTime := now }
    else st
  if st1.heatcycles ≤ (usub32 now st1.heatLastTime : ℚ) then
    { st1 with heaterState := false }
  else st1

/-- setHeatPowerPercentage, IR_PID.cpp lines 292-300: clamps the requested
power to [0, 1000] and returns the new value stored in heatcycles. -/
def setHeatPowerPercentage (power : ℚ) : ℚ :=
  let p1 := if power ≤ 0 then 0 else power
  let p2 := if 1000 ≤ p1 then 1000 else p1
  p2

lemma setHeatPowerPercentage_zero : setHeatPowerPercentage 0 = 0 := by
  norm_num [setHeatPowerPercentage]

lemma updateHeater_heatcycles (st : HeaterState) (now : Nat) :
    (updateHeater st now).heatcycles = st.heatcycles := by
  simp only [updateHeater]
  split_ifs <;> rfl

lemma updateHeater_off_of_zero (st : HeaterState) (now : Nat)
    (h : st.heatcycles = 0) :
    (updateHeater st now).heaterState = false := by
  unfold updateHeater
  by_cases hb : 1000 ≤ usub32 now st.heatLastTime ∨ now < st.heatLastTime
  · rw [if_pos hb]
    have hoff : ({ st with heaterState := true, heatLastTime := now } :
        HeaterState).heatcycles
        ≤ ((usub32 now ({ st with heaterState := true, heatLastTime := now} :
            HeaterState).heatLastTime : Nat) : ℚ) := by
      simp [h]
    rw [if_pos hoff]
  · rw [if_neg hb]
    have hoff : st.heatcycles ≤ ((usub32 now st.heatLastTime : Nat) : ℚ) := by
      rw [h]; exact Nat.cast_nonneg _
    rw [if_pos hoff]

/-- Claim C8: with heatcycles = 250, updateHeater starts a new window (output
high, window start reset to now) whenever 1000 ms have elapsed or the clock
wrapped (now below the window start), and within a window turns the output low
exactly once elapsed time reaches 250 ms, leaving it untouched before that:
high for the first 250 ms of each 1000 ms window, low for the remaining 750. -/
theorem updateHeater_duty_cycle (st : HeaterState) (now : Nat)
    (hp : st.heatcycles = 250) :
    ((1000 ≤ usub32 now st.heatLastTime ∨ now < st.heatLastTime) →
        (updateHeater st now).heatLastTime = now
          ∧ (updateHeater st now).heaterState = true)
      ∧ (¬(1000 ≤ usub32 now st.heatLastTime ∨ now < st.heatLastTime) →
          (updateHeater st now).heatLastTime = st.heatLastTime
            ∧ ((250 : ℚ) ≤ (usub32 now st.heatLastTime : ℚ) →
                (updateHeater st now).heaterState = false)
            ∧ ((usub32 now st.heatLastTime : ℚ) < 250 →
                (updateHeater st now).heaterState = st.heaterState)) := by
  constructor
  · intro hb
    unfold updateHeater
    rw [if_pos hb]
    have hoff : ¬ (({ st with heaterState := true, heatLastTime := now } :
        HeaterState).heatcycles
        ≤ ((usub32 now ({ st with heaterState := true, heatLastTime := now} :
            HeaterState).heatLastTime : Nat) : ℚ)) := by
      simp [hp, usub32_self]
    rw [if_neg hoff]
    exact ⟨rfl, rfl⟩
  · intro hb
    unfold updateHeater
    rw [if_neg hb]
    by_cases hc : st.heatcycles ≤ ((usub32 now st.heatLastTime : Nat) : ℚ)
    · rw [if_pos hc]
      refine ⟨rfl, fun _ => rfl, fun hlt => ?_⟩
      rw [hp] at hc
      linarith
    · rw [if_neg hc]
      refine ⟨rfl, fun hge => ?_, fun _ => rfl⟩
      rw [hp] at hc
      exact absurd hge hc

/-- Witness for updateHeater_duty_cycle at a wrapped clock: window start 5000,
current time 3 (the millisecond counter wrapped), power 250: a new window
begins with the output high. -/
theorem updateHeater_duty_cycle_witness :
    (updateHeater ⟨250, false, 5000⟩ 3).heatLastTime = 3
      ∧ (updateHeater ⟨250, false, 5000⟩ 3).heaterState = true :=
  (updateHeater_duty_cycle ⟨250, false, 5000⟩ 3 rfl).1 (Or.inr (by norm_num))

/-- Claim C10: whenever the stored heat power heatcycles is 0, updateHeater
leaves the output off on return for every clock value, wraparound included:
even when a window boundary first asserts the output, the unconditional
off-check (elapsed at least 0 ms, hence at least heatcycles) fires in the same
call.  The stored power itself is unchanged by the call. -/
theorem updateHeater_zero_power_off (st : HeaterState) (now : Nat)
    (h : st.heatcycles = 0) :
    (updateHeater st now).heaterState = false
      ∧ (updateHeater st now).heatcycles = 0 :=
  ⟨updateHeater_off_of_zero st now h, by rw [updateHeater_heatcycles]; exact h⟩

/-- Witness for updateHeater_zero_power_off at a wrapped clock value (window
start 5000, current time 2) with the output initially on. -/
theorem updateHeater_zero_power_off_witness :
    (updateHeater ⟨0, true, 5000⟩ 2).heaterState = false
      ∧ (updateHeater ⟨0, true, 5000⟩ 2).heatcycles = 0 :=
  updateHeater_zero_power_off ⟨0, true, 5000⟩ 2 rfl

/-- The whole program state threaded through one iteration of loop: the sensor
module, the PID module, the heater module, and the main file globals
targetTemp, lastPIDTime and heatPower (IR_PID.cpp lines 85-89). -/
structure SysState where
  sensor : SensorState
  pid : PIDState
  heater : HeaterState
  targetTemp : ℚ
  lastPIDTime : Nat
  heatPower : ℚ
deriving DecidableEq

/-- One iteration of loop, IR_PID.cpp lines 690-724, with now the sampled
millis() value for the iteration.  updateSerialInterface only mutates the PID
tunables, the target temperature and printing state, so it is modelled as the
identity (its possible effects are subsumed by quantifying over the pre-state);
the unused epoch global is omitted.  The iteration runs updateTempSensor, then
the rollover-guarded PID update (every PID_UPDATE_INTERVAL = 200 ms), then the
consecutive-timeout safety override, then updateHeater. -/
def loopStep (st : SysState) (now : Nat) : SysState :=
  let sensor1 := updateTempSensor st.sensor now
  let lastPIDTime1 := if now < st.lastPIDTime then 0 else st.lastPIDTime
  let st1 : SysState := { st with sensor := sensor1, lastPIDTime := lastPIDTime1 }
  let st2 :=
    if 200 < usub32 now st1.lastPIDTime then
      let fresh := getFreshTemp st1.sensor
      let pr := updatePID st1.pid st1.targetTemp fresh.1
      { st1 with
          sensor := fresh.2
          pid := pr.2
          heatPower := pr.1
          lastPIDTime := lastPIDTime1 + 200
          heater := { st1.heater with heatcycles := setHeatPowerPercentage pr.1 } }
    else st1
  let st3 :=
    if 20 < st2.sensor.consectutive_timeouts then
      { st2 with heater := { st2.heater with
          heatcycles := setHeatPowerPercentage 0 } }
    else st2
  { st3 with heater := updateHeater st3.heater now }

set_option maxRecDepth 10000 in
/-- Claim C4: in every loop iteration in which the consecutive timeout counter
(as just updated by updateTempSensor in that iteration) exceeds 20, the heater
power command applied in the iteration is forced to 0, overriding whatever
power the PID update computed in the same iteration, and the heater output is
off when the iteration ends. -/
theorem loopStep_timeout_interlock (st : SysState) (now : Nat)
    (h : 20 < (updateTempSensor st.sensor now).consectutive_timeouts) :
    (loopStep st now).heater.heatcycles = 0
      ∧ (loopStep st now).heater.heaterState = false := by
  simp only [loopStep, getFreshTemp]
  split_ifs <;>
    exact ⟨by rw [updateHeater_heatcycles]; exact setHeatPowerPercentage_zero,
      updateHeater_off_of_zero _ _ setHeatPowerPercentage_zero⟩

/-- Concrete pre-state for the C4 witness: the sensor has already seen 21
consecutive timeouts, no message is waiting, and the PID step is not due. -/
def interlockState : SysState :=
  ⟨⟨0, 0, 0, 0, [0, 0, 0, 0], 0, 0, 0, 21, 0, 0, 0, 0, 0⟩,
   ⟨1, 1, 1, 0, 0⟩, ⟨77, true, 0⟩, 100, 0, 0⟩

set_option maxRecDepth 10000 in
/-- Witness for loopStep_timeout_interlock: with 21 consecutive timeouts the
iteration ends with zero commanded power and the heater off, although the
stored power was 77 and the output on. -/
theorem loopStep_timeout_interlock_witness :
    (loopStep interlockState 0).heater.heatcycles = 0
      ∧ (loopStep interlockState 0).heater.heaterState = false :=
  loopStep_timeout_interlock interlockState 0 (by decide)
